import Mathlib

/-!
# MicroROS-Controller: the connection state machine of `src/main.cpp`

A shallow embedding of `main.cpp` (an ESP32 micro-ROS subscriber node) and the
properties of its connection life cycle.

Modelling conventions.

* The globals of `main.cpp` that the program reads or writes in a way that matters
  (`connection_state`, `msg.axes`) are fields of `Globals`.  The opaque middleware
  handles (`allocator`, `support`, `executor`, `node`, `controller`, `rmw_context`)
  are only ever passed to library functions, so they carry no modelled state.
* Every library call whose result the program can observe takes that result from an
  `Env`, the answers of the collaborators during one call of `HandleConnectionState`.
  Return codes are integers, `RCL_RET_OK = RMW_RET_OK = 0`.
* `ESP.restart()` does not return: a computation is a function from `Globals` to an
  `Outcome`, which is either `done` (the call returned) or `restart` (the device was
  reset in the middle of the call).
* `Serial` output and `delay` change nothing the program can observe and are left out.
* Three ghost fields record what happened: `history` (every value `connection_state`
  has held), `trace` (calls and array reads) and `heap` (blocks handed out by `malloc`).
-/

namespace MicroROSController

/-! ## Data model -/

/-- The `enum class ConnectionState` of `main.cpp`. -/
inductive ConnectionState where
  | Initializing
  | WaitingForAgent
  | Connecting
  | Connected
  | Disconnected
  deriving DecidableEq, Repr

/-- The functions whose calls are recorded in the trace. -/
inductive Fn where
  | CreateEntities
  | DestroyEntities
  | error_loop
  | ControllerCallback
  | rclc_executor_spin_some
  deriving DecidableEq, Repr

/-- Ghost events, recorded in `Globals.trace`. -/
inductive Event where
  /-- Entry into a function. -/
  | call (f : Fn)
  /-- `CreateEntities` returned the given value. -/
  | create_returned (b : Bool)
  /-- `DestroyEntities` returned. -/
  | destroy_returned
  /-- An element of `msg.axes.data` was read at the given index. -/
  | axes_read (i : Nat)
  deriving DecidableEq, Repr

/-- The `axes` member of `sensor_msgs__msg__Joy`, a `rosidl_runtime_c__float__Sequence`:
`data` is a pointer (`none` is `NULL`, `some k` is the block `malloc` returned as its
`k`-th allocation), `size` and `capacity` are element counts. -/
structure Axes where
  data : Option Nat
  size : Nat
  capacity : Nat
  deriving DecidableEq, Repr

/-- The part of `sensor_msgs__msg__Joy` the program touches. -/
structure Joy where
  axes : Axes
  deriving DecidableEq, Repr

/-- The C heap as far as `main.cpp` uses it.  `blocks` lists the byte size of every block
`malloc` has returned since boot, oldest first (block `k` is `blocks[k]`); `freed` lists
the blocks passed to `free`. -/
structure Heap where
  blocks : List Nat
  freed : List Nat
  deriving DecidableEq, Repr

/-- Program state: the globals of `main.cpp` and the ghost records.
`history` and `trace` are kept most recent first. -/
structure Globals where
  connection_state : ConnectionState
  msg : Joy
  heap : Heap
  history : List ConnectionState
  trace : List Event
  deriving DecidableEq, Repr

/-- Return codes: `rcl_ret_t` and `rmw_ret_t` are `int`. -/
abbrev rcl_ret_t := Int

/-- The value of `RCL_RET_OK`. -/
def RCL_RET_OK : rcl_ret_t := 0

/-- The value of `RMW_RET_OK`. -/
def RMW_RET_OK : rcl_ret_t := 0

/-- The answers of the collaborators during one call of `HandleConnectionState`:
the return code of each library call, whether `malloc` finds memory, and the number of
axes of the message that arrives during the dispatch pass, when one does. -/
structure Env where
  ping : rcl_ret_t
  support_init : rcl_ret_t
  node_init : rcl_ret_t
  executor_init : rcl_ret_t
  subscription_init : rcl_ret_t
  malloc_ok : Bool
  add_subscription : rcl_ret_t
  subscription_fini : rcl_ret_t
  executor_fini : rcl_ret_t
  node_fini : rcl_ret_t
  support_fini : rcl_ret_t
  delivery : Option Nat
  deriving DecidableEq, Repr

/-! ## Computations that may end in a device restart -/

/-- How a call ends: it returns a value, or the device restarts inside it. -/
inductive Outcome (α : Type) where
  | done (a : α) (g : Globals)
  | restart (g : Globals)
  deriving DecidableEq, Repr

/-- The state in which a call ended. -/
def Outcome.globals {α : Type} : Outcome α → Globals
  | .done _ g => g
  | .restart g => g

/-- Whether the call returned. -/
def Outcome.returned {α : Type} : Outcome α → Bool
  | .done _ _ => true
  | .restart _ => false

/-- A computation over the globals. -/
def Exec (α : Type) : Type := Globals → Outcome α

/-- Sequencing: nothing runs after a restart. -/
def Outcome.andThen {α β : Type} (o : Outcome α) (f : α → Exec β) : Outcome β :=
  match o with
  | .done a g => f a g
  | .restart g => .restart g

instance : Monad Exec where
  pure a := fun g => .done a g
  bind m f := fun g => (m g).andThen f

/-- Append a ghost event. -/
def record (ev : Event) : Exec Unit :=
  fun g => .done () { g with trace := ev :: g.trace }

/-- Read the globals. -/
def getGlobals : Exec Globals :=
  fun g => .done g g

/-- The assignment `connection_state = s;`. -/
def set_connection_state (s : ConnectionState) : Exec Unit :=
  fun g => .done () { g with connection_state := s, history := s :: g.history }

/-- The assignment `msg.axes = a;` (field by field in the source). -/
def set_msg_axes (a : Axes) : Exec Unit :=
  fun g => .done () { g with msg := { g.msg with axes := a } }

/-- A library call: its return code comes from the environment. -/
def libcall (rc : rcl_ret_t) : Exec rcl_ret_t :=
  fun g => .done rc g

/-- The `malloc` of the C library: on success a block that was never handed out before. -/
def malloc (ok : Bool) (bytes : Nat) : Exec (Option Nat) :=
  fun g =>
    if ok then
      .done (some g.heap.blocks.length)
        { g with heap := { g.heap with blocks := g.heap.blocks ++ [bytes] } }
    else
      .done none g

/-- The expression `p[i]` on a `const float *`: element `i` of the array is read. -/
def read_float (_p : Option Nat) (i : Nat) : Exec Unit :=
  record (.axes_read i)

/-- The call `ESP.restart()`: the device resets; the call does not return. -/
def ESP_restart : Exec Unit :=
  fun g => .restart g

/-! ## The library calls -/

/-- The probe `rmw_uros_ping_agent(timeout_ms, attempts)`. -/
def rmw_uros_ping_agent (e : Env) (_timeout_ms _attempts : Nat) : Exec rcl_ret_t :=
  libcall e.ping

/-- The call `rclc_support_init(&support, 0, NULL, &allocator)`. -/
def rclc_support_init (e : Env) : Exec rcl_ret_t :=
  libcall e.support_init

/-- The call `rclc_node_init_default(&node, node_name, ..., &support)`. -/
def rclc_node_init_default (e : Env) : Exec rcl_ret_t :=
  libcall e.node_init

/-- The call `rclc_executor_init(&executor, &support.context, 10, &allocator)`. -/
def rclc_executor_init (e : Env) : Exec rcl_ret_t :=
  libcall e.executor_init

/-- The call `rclc_subscription_init_default(&controller, &node, ...)` for topic `Joy`. -/
def rclc_subscription_init_default (e : Env) : Exec rcl_ret_t :=
  libcall e.subscription_init

/-- The call `rclc_executor_add_subscription(&executor, &controller, &msg,
&ControllerCallback, ON_NEW_DATA)`. -/
def rclc_executor_add_subscription (e : Env) : Exec rcl_ret_t :=
  libcall e.add_subscription

/-- The call `rcl_subscription_fini(&controller, &node)`. -/
def rcl_subscription_fini (e : Env) : Exec rcl_ret_t :=
  libcall e.subscription_fini

/-- The call `rclc_executor_fini(&executor)`. -/
def rclc_executor_fini (e : Env) : Exec rcl_ret_t :=
  libcall e.executor_fini

/-- The call `rcl_node_fini(&node)`. -/
def rcl_node_fini (e : Env) : Exec rcl_ret_t :=
  libcall e.node_fini

/-- The call `rclc_support_fini(&support)`. -/
def rclc_support_fini (e : Env) : Exec rcl_ret_t :=
  libcall e.support_fini

/-! ## The program -/

/-- The value of `sizeof(float)` on the ESP32. -/
def sizeof_float : Nat := 4

/-- The function `void error_loop()`: print, wait, restart. -/
def error_loop : Exec Unit := do
  record (.call .error_loop)
  ESP_restart

/-- The macro `RCCHECK(fn)`: evaluate `fn` into `temp_rc` and, if
`temp_rc != RCL_RET_OK`, call `error_loop()`. -/
def RCCHECK (fn : Exec rcl_ret_t) : Exec Unit := do
  let temp_rc ← fn
  if temp_rc ≠ RCL_RET_OK then error_loop

/-- The function `void ControllerCallback(const void * msgin)`: reads `size` and the data
pointer, prints the size, then prints `array_data[4]`. -/
def ControllerCallback (msgin : Joy) : Exec Unit := do
  record (.call .ControllerCallback)
  let _size := msgin.axes.size
  let array_data := msgin.axes.data
  read_float array_data 4

/-- The dispatch pass `rclc_executor_spin_some(&executor, RCL_MS_TO_NS(100))` of the
library: when a message with `n` axes arrives and fits the receive buffer, the library
stores it in `msg` and calls the registered callback once with `&msg`. -/
def rclc_executor_spin_some (e : Env) : Exec Unit := do
  record (.call .rclc_executor_spin_some)
  match e.delivery with
  | none => pure ()
  | some n => do
    let g ← getGlobals
    if n ≤ g.msg.axes.capacity then
      set_msg_axes { g.msg.axes with size := n }
      let g ← getGlobals
      ControllerCallback g.msg

/-- The function `bool CreateEntities()`.  The first statement of the source,
`allocator = rcl_get_default_allocator();`, has no modelled effect. -/
def CreateEntities (e : Env) : Exec Bool := do
  record (.call .CreateEntities)
  RCCHECK (rclc_support_init e)
  RCCHECK (rclc_node_init_default e)
  RCCHECK (rclc_executor_init e)
  RCCHECK (rclc_subscription_init_default e)
  let p ← malloc e.malloc_ok (10 * sizeof_float)
  let g ← getGlobals
  set_msg_axes { g.msg.axes with data := p }
  let g ← getGlobals
  set_msg_axes { g.msg.axes with capacity := 10 }
  let g ← getGlobals
  set_msg_axes { g.msg.axes with size := 0 }
  let _ ← rclc_executor_add_subscription e
  record (.create_returned true)
  return true

/-- The function `void DestroyEntities()`.  Its first two statements fetch the rmw
context and set the entity-destruction timeout to zero, discarding the result; they have
no modelled effect. -/
def DestroyEntities (e : Env) : Exec Unit := do
  record (.call .DestroyEntities)
  RCCHECK (rcl_subscription_fini e)
  let _ ← rclc_executor_fini e
  RCCHECK (rcl_node_fini e)
  let _ ← rclc_support_fini e
  record .destroy_returned

/-- The function `void HandleConnectionState()`: a `switch` on `connection_state`, whose
`default` branch (here `Initializing`) does nothing. -/
def HandleConnectionState (e : Env) : Exec Unit := fun g =>
  match g.connection_state with
  | .WaitingForAgent =>
    (do
      if RMW_RET_OK = (← rmw_uros_ping_agent e 200 3) then
        set_connection_state .Connecting) g
  | .Connecting =>
    (do
      if (← CreateEntities e) then
        set_connection_state .Connected
      else
        set_connection_state .WaitingForAgent) g
  | .Connected =>
    (do
      if RMW_RET_OK ≠ (← rmw_uros_ping_agent e 200 3) then
        set_connection_state .Disconnected
      else
        rclc_executor_spin_some e) g
  | .Disconnected =>
    (do
      DestroyEntities e
      set_connection_state .WaitingForAgent) g
  | .Initializing => .done () g

/-- The globals as the C++ runtime initialises them at power-on. -/
def boot : Globals where
  connection_state := .Initializing
  msg := { axes := { data := none, size := 0, capacity := 0 } }
  heap := { blocks := [], freed := [] }
  history := [.Initializing]
  trace := []

/-- The function `void setup()`: brings up the serial port, the Ethernet chip and the
micro-ROS transport, then sets `WaitingForAgent`. -/
def setup : Exec Unit :=
  set_connection_state .WaitingForAgent

/-- Successive iterations of `loop()` (`HandleConnectionState(); delay(1000);`), one `Env`
per iteration. -/
def ticks : List Env → Exec Unit
  | [] => pure ()
  | e :: es => do
    HandleConnectionState e
    ticks es

/-- One execution of the firmware: power-on, `setup()`, then `loop()` once per element. -/
def execution (es : List Env) : Outcome Unit :=
  (do setup; ticks es) boot

/-! ## Observations on the ghost records -/

/-- The number of calls of `f` in a trace. -/
def calls (f : Fn) (t : List Event) : Nat :=
  t.count (.call f)

/-- The indices at which `msg.axes.data` was read, most recent first. -/
def axes_reads : List Event → List Nat
  | [] => []
  | .axes_read i :: t => i :: axes_reads t
  | _ :: t => axes_reads t

/-- A Session exists: `CreateEntities` has returned `true` and `DestroyEntities` has not
been run since. -/
def session_exists : List Event → Bool
  | [] => false
  | .create_returned true :: _ => true
  | .call .DestroyEntities :: _ => false
  | _ :: t => session_exists t

/-- The transition table of the connection state machine, edge by edge. -/
def table_edge : ConnectionState → ConnectionState → Bool
  | .Initializing, .WaitingForAgent => true
  | .WaitingForAgent, .Connecting => true
  | .WaitingForAgent, .WaitingForAgent => true
  | .Connecting, .Connected => true
  | .Connecting, .WaitingForAgent => true
  | .Connected, .Connected => true
  | .Connected, .Disconnected => true
  | .Disconnected, .WaitingForAgent => true
  | _, _ => false

/-- The four checked steps of `CreateEntities` all returned `RCL_RET_OK`. -/
def create_checks_ok (e : Env) : Prop :=
  e.support_init = RCL_RET_OK ∧ e.node_init = RCL_RET_OK ∧ e.executor_init = RCL_RET_OK
    ∧ e.subscription_init = RCL_RET_OK

instance (e : Env) : Decidable (create_checks_ok e) := by
  unfold create_checks_ok; infer_instance

/-- The two checked steps of `DestroyEntities` both returned `RCL_RET_OK`. -/
def destroy_checks_ok (e : Env) : Prop :=
  e.subscription_fini = RCL_RET_OK ∧ e.node_fini = RCL_RET_OK

instance (e : Env) : Decidable (destroy_checks_ok e) := by
  unfold destroy_checks_ok; infer_instance

/-- The message, if any, that the dispatch pass delivers into a buffer of the given
capacity. -/
def delivered (e : Env) (capacity : Nat) : Option Nat :=
  match e.delivery with
  | none => none
  | some n => if n ≤ capacity then some n else none

/-- One connect/disconnect cycle, seen from the collaborators: the tick in
`WaitingForAgent`, the tick in `Connecting`, the ticks spent in `Connected`, the tick in
which the probe fails, and the tick in `Disconnected`. -/
structure Cycle where
  found : Env
  create : Env
  connected : List Env
  lost : Env
  destroy : Env

/-- The cycle runs in full: the agent is found, every step of `CreateEntities` succeeds
(`malloc` included), the agent stays reachable, is then lost, and `DestroyEntities`
returns. -/
def Cycle.full (c : Cycle) : Prop :=
  c.found.ping = RMW_RET_OK ∧ create_checks_ok c.create ∧ c.create.malloc_ok = true
    ∧ (∀ e ∈ c.connected, e.ping = RMW_RET_OK) ∧ c.lost.ping ≠ RMW_RET_OK
    ∧ destroy_checks_ok c.destroy

instance (c : Cycle) : Decidable c.full := by
  unfold Cycle.full; infer_instance

/-- The ticks of a cycle, in order. -/
def Cycle.envs (c : Cycle) : List Env :=
  c.found :: c.create :: (c.connected ++ [c.lost, c.destroy])

/-- The ticks of successive cycles. -/
def cycles_envs : List Cycle → List Env
  | [] => []
  | c :: cs => c.envs ++ cycles_envs cs

/-- The history invariant: most recent first, the history starts with the current value of
`connection_state`, goes back to `Initializing`, and each value was reached from the one
before it along an edge of the table. -/
def history_ok (g : Globals) : Prop :=
  g.history.head? = some g.connection_state
    ∧ List.Chain' (fun b a => table_edge a b = true) g.history
    ∧ g.history.getLast? = some .Initializing

/-- The session invariant of the reachable states. -/
def session_ok (g : Globals) : Prop :=
  session_exists g.trace = true
    ↔ (g.connection_state = .Connected ∨ g.connection_state = .Disconnected)

/-! ## Sample environments -/

/-- Every collaborator answers OK, `malloc` finds memory, no message arrives. -/
def env_ok : Env where
  ping := 0
  support_init := 0
  node_init := 0
  executor_init := 0
  subscription_init := 0
  malloc_ok := true
  add_subscription := 0
  subscription_fini := 0
  executor_fini := 0
  node_fini := 0
  support_fini := 0
  delivery := none

/-- As `env_ok`, with the agent unreachable. -/
def env_unreachable : Env := { env_ok with ping := 1 }

/-- As `env_ok`, but the subscription cannot be finalized. -/
def env_subscription_fini_fails : Env := { env_ok with subscription_fini := 1 }

/-- As `env_ok`, but `rclc_subscription_init_default` fails. -/
def env_subscription_init_fails : Env := { env_ok with subscription_init := 1 }

/-- As `env_ok`, but `rclc_executor_add_subscription` fails. -/
def env_add_subscription_fails : Env := { env_ok with add_subscription := 1 }

/-- As `env_ok`, but `malloc` returns `NULL`. -/
def env_malloc_fails : Env := { env_ok with malloc_ok := false }

/-- Subscription and node are finalized; executor and support finalization fail. -/
def env_unchecked_fini_fail : Env := { env_ok with executor_fini := 1, support_fini := 1 }

/-- A message with four axes arrives during the dispatch pass. -/
def env_four_axes : Env := { env_ok with delivery := some 4 }

/-- A cycle with one tick spent in `Connected`. -/
def cycle_ok : Cycle where
  found := env_ok
  create := env_ok
  connected := [env_ok]
  lost := env_unreachable
  destroy := env_ok

/-- The state after `setup` and two ticks with every collaborator answering OK:
`Connected`, with a Session. -/
def connected_globals : Globals := (execution [env_ok, env_ok]).globals

/-- The state one tick later, after the probe failed: `Disconnected`. -/
def disconnected_globals : Globals := (execution [env_ok, env_ok, env_unreachable]).globals

/-- The state after `setup` and one tick with the agent reachable: `Connecting`. -/
def connecting_globals : Globals := (execution [env_ok]).globals

/-- A received message with four axes in a buffer of capacity ten. -/
def joy_four_axes : Joy := { axes := { data := some 0, size := 4, capacity := 10 } }

/-! ## Unfolding lemmas -/

@[simp] theorem Outcome.andThen_done {α β : Type} (a : α) (g : Globals) (f : α → Exec β) :
    (Outcome.done a g).andThen f = f a g := rfl

@[simp] theorem Outcome.andThen_restart {α β : Type} (g : Globals) (f : α → Exec β) :
    (Outcome.restart g : Outcome α).andThen f = .restart g := rfl

@[simp] theorem Exec.pure_apply {α : Type} (a : α) (g : Globals) :
    (pure a : Exec α) g = .done a g := rfl

@[simp] theorem Exec.bind_apply {α β : Type} (m : Exec α) (f : α → Exec β) (g : Globals) :
    (m >>= f) g = (m g).andThen f := rfl

@[simp] theorem Exec.ite_apply {α : Type} (c : Prop) [Decidable c] (a b : Exec α)
    (g : Globals) : (if c then a else b) g = if c then a g else b g := by
  split <;> rfl

@[simp] theorem record_apply (ev : Event) (g : Globals) :
    record ev g = .done () { g with trace := ev :: g.trace } := rfl

@[simp] theorem getGlobals_apply (g : Globals) : getGlobals g = .done g g := rfl

@[simp] theorem set_connection_state_apply (s : ConnectionState) (g : Globals) :
    set_connection_state s g
      = .done () { g with connection_state := s, history := s :: g.history } := rfl

@[simp] theorem set_msg_axes_apply (a : Axes) (g : Globals) :
    set_msg_axes a g = .done () { g with msg := { g.msg with axes := a } } := rfl

@[simp] theorem libcall_apply (rc : rcl_ret_t) (g : Globals) :
    libcall rc g = .done rc g := rfl

@[simp] theorem ESP_restart_apply (g : Globals) : ESP_restart g = .restart g := rfl

@[simp] theorem error_loop_apply (g : Globals) :
    error_loop g = .restart { g with trace := .call .error_loop :: g.trace } := rfl

theorem RCCHECK_libcall (rc : rcl_ret_t) (g : Globals) :
    RCCHECK (libcall rc) g
      = if rc = 0 then .done () g
        else .restart { g with trace := .call .error_loop :: g.trace } := by
  by_cases h : rc = 0 <;> simp [RCCHECK, RCL_RET_OK, h]


theorem CreateEntities_apply (e : Env) (g : Globals) :
    CreateEntities e g =
      if create_checks_ok e then
        .done true
          { g with
            msg := { axes := { data := if e.malloc_ok then some g.heap.blocks.length else none,
                               size := 0, capacity := 10 } }
            heap := if e.malloc_ok then { g.heap with blocks := g.heap.blocks ++ [40] }
                    else g.heap
            trace := .create_returned true :: .call .CreateEntities :: g.trace }
      else
        .restart { g with trace := .call .error_loop :: .call .CreateEntities :: g.trace } := by
  unfold create_checks_ok RCL_RET_OK
  by_cases h1 : e.support_init = 0 <;> by_cases h2 : e.node_init = 0 <;>
    by_cases h3 : e.executor_init = 0 <;> by_cases h4 : e.subscription_init = 0 <;>
    cases h5 : e.malloc_ok <;>
    simp [CreateEntities, rclc_support_init, rclc_node_init_default, rclc_executor_init,
      rclc_subscription_init_default, rclc_executor_add_subscription, RCCHECK_libcall,
      malloc, sizeof_float, h1, h2, h3, h4, h5]

theorem DestroyEntities_apply (e : Env) (g : Globals) :
    DestroyEntities e g =
      if destroy_checks_ok e then
        .done () { g with trace := .destroy_returned :: .call .DestroyEntities :: g.trace }
      else
        .restart { g with trace := .call .error_loop :: .call .DestroyEntities :: g.trace } := by
  unfold destroy_checks_ok RCL_RET_OK
  by_cases h1 : e.subscription_fini = 0 <;> by_cases h2 : e.node_fini = 0 <;>
    simp [DestroyEntities, rcl_subscription_fini, rclc_executor_fini, rcl_node_fini,
      rclc_support_fini, RCCHECK_libcall, h1, h2]

theorem rclc_executor_spin_some_apply (e : Env) (g : Globals) :
    rclc_executor_spin_some e g =
      match delivered e g.msg.axes.capacity with
      | none => .done () { g with trace := .call .rclc_executor_spin_some :: g.trace }
      | some n =>
        .done ()
          { g with
            msg := { axes := { g.msg.axes with size := n } }
            trace := .axes_read 4 :: .call .ControllerCallback ::
                       .call .rclc_executor_spin_some :: g.trace } := by
  unfold delivered
  cases h : e.delivery with
  | none => simp [rclc_executor_spin_some, h]
  | some n =>
    by_cases hn : n ≤ g.msg.axes.capacity <;>
      simp [rclc_executor_spin_some, ControllerCallback, read_float, h, hn]

/-- The function `HandleConnectionState`, state by state. -/
theorem HandleConnectionState_apply (e : Env) (g : Globals) :
    HandleConnectionState e g =
      match g.connection_state with
      | .Initializing => .done () g
      | .WaitingForAgent =>
        if e.ping = RMW_RET_OK then
          .done () { g with connection_state := .Connecting, history := .Connecting :: g.history }
        else .done () g
      | .Connecting =>
        (CreateEntities e g).andThen fun _ => set_connection_state .Connected
      | .Connected =>
        if e.ping = RMW_RET_OK then rclc_executor_spin_some e g
        else
          .done ()
            { g with connection_state := .Disconnected, history := .Disconnected :: g.history }
      | .Disconnected =>
        (DestroyEntities e g).andThen fun _ => set_connection_state .WaitingForAgent := by
  cases hcs : g.connection_state
  · simp [HandleConnectionState, rmw_uros_ping_agent, hcs]
  · by_cases hp : e.ping = RMW_RET_OK
    · simp [HandleConnectionState, rmw_uros_ping_agent, hcs, hp]
    · have hp2 : ¬ RMW_RET_OK = e.ping := fun h => hp h.symm
      simp [HandleConnectionState, rmw_uros_ping_agent, hcs, hp, hp2]
  · simp only [HandleConnectionState, rmw_uros_ping_agent, hcs, Exec.bind_apply, CreateEntities_apply]
    by_cases hc : create_checks_ok e <;> simp [hc]
  · by_cases hp : e.ping = RMW_RET_OK
    · simp [HandleConnectionState, rmw_uros_ping_agent, hcs, hp]
    · have hp2 : ¬ RMW_RET_OK = e.ping := fun h => hp h.symm
      simp [HandleConnectionState, rmw_uros_ping_agent, hcs, hp, hp2]
  · simp [HandleConnectionState, rmw_uros_ping_agent, hcs]


/-! ## The state machine follows the transition table -/

/-- What one call does to `connection_state`: nothing, or one assignment along an edge
of the table. -/
theorem HandleConnectionState_edge (e : Env) (g : Globals) :
    ((HandleConnectionState e g).globals.connection_state = g.connection_state
        ∧ (HandleConnectionState e g).globals.history = g.history)
      ∨ (table_edge g.connection_state (HandleConnectionState e g).globals.connection_state
            = true
          ∧ (HandleConnectionState e g).globals.history
              = (HandleConnectionState e g).globals.connection_state :: g.history) := by
  rw [HandleConnectionState_apply]
  cases hcs : g.connection_state
  · simp [Outcome.globals, hcs]
  · by_cases hp : e.ping = RMW_RET_OK <;> simp [Outcome.globals, hcs, hp, table_edge]
  · by_cases hc : create_checks_ok e <;>
      simp [CreateEntities_apply, Outcome.globals, hcs, hc, table_edge]
  · by_cases hp : e.ping = RMW_RET_OK
    · simp only [hp, if_true, rclc_executor_spin_some_apply]
      cases delivered e g.msg.axes.capacity <;> simp [Outcome.globals, hcs]
    · simp [Outcome.globals, hcs, hp, table_edge]
  · by_cases hd : destroy_checks_ok e <;>
      simp [DestroyEntities_apply, Outcome.globals, hcs, hd, table_edge]

theorem history_ok_tick (e : Env) (g : Globals) (h : history_ok g) :
    history_ok (HandleConnectionState e g).globals := by
  rcases HandleConnectionState_edge e g with ⟨h1, h2⟩ | ⟨h1, h2⟩
  · exact ⟨by rw [h2, h1]; exact h.1, by rw [h2]; exact h.2⟩
  · refine ⟨by rw [h2]; rfl, ?_, ?_⟩
    · rw [h2, List.chain'_cons']
      refine ⟨?_, h.2.1⟩
      intro y hy
      rw [h.1] at hy
      cases hy
      exact h1
    · rw [h2, List.getLast?_cons, h.2.2]
      rfl

theorem history_ok_ticks (es : List Env) (g : Globals) (h : history_ok g) :
    history_ok (ticks es g).globals := by
  induction es generalizing g with
  | nil => exact h
  | cons e es ih =>
    have ht : ticks (e :: es) g = (HandleConnectionState e g).andThen fun _ => ticks es := rfl
    have hk := history_ok_tick e g h
    rw [ht]
    cases ho : HandleConnectionState e g with
    | done a g1 =>
      rw [ho] at hk
      exact ih g1 hk
    | restart g1 =>
      rw [ho] at hk
      exact hk

theorem history_ok_execution (es : List Env) : history_ok (execution es).globals := by
  have h0 : history_ok (setup boot).globals := by
    refine ⟨rfl, ?_, rfl⟩
    simp [setup, boot, table_edge, Outcome.globals]
  exact history_ok_ticks es _ h0

/-- C1. In every call of `HandleConnectionState`, whatever the collaborators answer,
`connection_state` is either left as it was or assigned once, along an edge of the
transition table; and in every execution of the firmware (power-on, `setup`, any number
of ticks, ended or not by a restart) the successive values of `connection_state`, from
`Initializing` on, are linked by edges of the table. -/
theorem connection_state_follows_table :
    (∀ (e : Env) (g : Globals),
      ((HandleConnectionState e g).globals.connection_state = g.connection_state
          ∧ (HandleConnectionState e g).globals.history = g.history)
        ∨ (table_edge g.connection_state
              (HandleConnectionState e g).globals.connection_state = true
            ∧ (HandleConnectionState e g).globals.history
                = (HandleConnectionState e g).globals.connection_state :: g.history))
    ∧ (∀ es : List Env,
        List.Chain' (fun a b => table_edge a b = true) (execution es).globals.history.reverse
        ∧ (execution es).globals.history.reverse.head? = some .Initializing
        ∧ (execution es).globals.history.head?
            = some (execution es).globals.connection_state) := by
  refine ⟨HandleConnectionState_edge, fun es => ?_⟩
  have h := history_ok_execution es
  refine ⟨?_, ?_, h.1⟩
  · rw [List.chain'_reverse]
    exact h.2.1
  · rw [List.head?_reverse]
    exact h.2.2


/-! ## Scenario A -/

theorem ticks_cons (e : Env) (es : List Env) (g : Globals) :
    ticks (e :: es) g = (HandleConnectionState e g).andThen fun _ => ticks es := rfl

theorem ticks_append (es fs : List Env) (g : Globals) :
    ticks (es ++ fs) g = (ticks es g).andThen fun _ => ticks fs := by
  induction es generalizing g with
  | nil => rfl
  | cons e es ih =>
    rw [List.cons_append, ticks_cons, ticks_cons]
    cases HandleConnectionState e g with
    | done a g1 => simpa using ih g1
    | restart g1 => rfl

/-- C8. Scenario A: from `WaitingForAgent`, as long as the probe reports the agent
unreachable, any number of ticks returns with the state untouched: `connection_state`
is still `WaitingForAgent`, and `CreateEntities`, `DestroyEntities` and the dispatch pass
have not been called (no Session has been created). -/
theorem waiting_while_unreachable (es : List Env) (g : Globals)
    (hw : g.connection_state = .WaitingForAgent)
    (hp : ∀ e ∈ es, e.ping ≠ RMW_RET_OK) :
    ticks es g = .done () g
      ∧ (ticks es g).globals.connection_state = .WaitingForAgent
      ∧ calls .CreateEntities (ticks es g).globals.trace = calls .CreateEntities g.trace
      ∧ calls .DestroyEntities (ticks es g).globals.trace = calls .DestroyEntities g.trace
      ∧ calls .rclc_executor_spin_some (ticks es g).globals.trace
          = calls .rclc_executor_spin_some g.trace
      ∧ session_exists (ticks es g).globals.trace = session_exists g.trace := by
  have key : ticks es g = .done () g := by
    induction es with
    | nil => rfl
    | cons e es ih =>
      have he : e.ping ≠ RMW_RET_OK := hp e (List.mem_cons_self _ _)
      rw [ticks_cons, HandleConnectionState_apply, hw]
      simp only [he, if_false, Outcome.andThen_done]
      exact ih fun e1 h1 => hp e1 (List.mem_cons_of_mem _ h1)
  rw [key]
  exact ⟨rfl, hw, rfl, rfl, rfl, rfl⟩

/-- Witness for C8: three ticks with the agent unreachable, straight after `setup`. -/
theorem waiting_while_unreachable_witness :
    ticks [env_unreachable, env_unreachable, env_unreachable] (setup boot).globals
        = .done () (setup boot).globals
      ∧ calls .CreateEntities
          (ticks [env_unreachable, env_unreachable, env_unreachable]
            (setup boot).globals).globals.trace = 0 :=
  have h := waiting_while_unreachable [env_unreachable, env_unreachable, env_unreachable]
    (setup boot).globals rfl (by decide)
  ⟨h.1, h.2.2.1⟩

/-! ## The dispatch pass -/

/-- C3, counterexample. In `Disconnected`, when `rcl_subscription_fini` returns a code
other than `RCL_RET_OK`, `DestroyEntities` calls `error_loop` and the device restarts:
the tick does not return and `connection_state` is still `Disconnected`. -/
theorem destroy_escalates_subscription_fini :
    disconnected_globals.connection_state = .Disconnected
      ∧ (DestroyEntities env_subscription_fini_fails disconnected_globals).returned = false
      ∧ calls .error_loop
          (DestroyEntities env_subscription_fini_fails disconnected_globals).globals.trace = 1
      ∧ (HandleConnectionState env_subscription_fini_fails disconnected_globals).returned
          = false
      ∧ (HandleConnectionState env_subscription_fini_fails
            disconnected_globals).globals.connection_state = .Disconnected := by
  decide

/-- C3, amended. In `Disconnected`: when the two finalize steps wrapped in `RCCHECK`
(subscription and node) return `RCL_RET_OK`, whatever the executor and support finalize
steps return, `DestroyEntities` returns without calling `error_loop` and the tick ends
with `connection_state = WaitingForAgent`; when one of the two does not, `error_loop`
is called once, the device restarts and `connection_state` is never assigned. -/
theorem destroy_best_effort_unless_checked (e : Env) (g : Globals)
    (hd : g.connection_state = .Disconnected) :
    if e.subscription_fini = RCL_RET_OK ∧ e.node_fini = RCL_RET_OK then
      (DestroyEntities e g).returned = true
        ∧ calls .error_loop (DestroyEntities e g).globals.trace = calls .error_loop g.trace
        ∧ (HandleConnectionState e g).returned = true
        ∧ calls .error_loop (HandleConnectionState e g).globals.trace
            = calls .error_loop g.trace
        ∧ (HandleConnectionState e g).globals.connection_state = .WaitingForAgent
    else
      (DestroyEntities e g).returned = false
        ∧ calls .error_loop (DestroyEntities e g).globals.trace
            = calls .error_loop g.trace + 1
        ∧ (HandleConnectionState e g).returned = false
        ∧ (HandleConnectionState e g).globals.connection_state = .Disconnected
        ∧ (HandleConnectionState e g).globals.history = g.history := by
  rw [HandleConnectionState_apply, hd]
  by_cases hc : destroy_checks_ok e
  · have hc2 := hc
    unfold destroy_checks_ok at hc2
    simp [DestroyEntities_apply, hc, hc2, Outcome.globals, Outcome.returned, calls]
  · have hc2 := hc
    unfold destroy_checks_ok at hc2
    simp [DestroyEntities_apply, hc, hc2, Outcome.globals, Outcome.returned, calls, hd]

/-- Witness for C3: executor and support finalization fail, subscription and node
finalization succeed; the tick returns in `WaitingForAgent`. -/
theorem destroy_best_effort_unless_checked_witness :
    disconnected_globals.connection_state = .Disconnected
      ∧ (DestroyEntities env_unchecked_fini_fail disconnected_globals).returned = true
      ∧ (HandleConnectionState env_unchecked_fini_fail
            disconnected_globals).globals.connection_state = .WaitingForAgent := by
  have h := destroy_best_effort_unless_checked env_unchecked_fini_fail disconnected_globals
    (by decide)
  rw [if_pos (by decide)] at h
  exact ⟨by decide, h.1, h.2.2.2.2⟩

/-! ## Creation -/

/-- C4, the code at the failing inputs. With the four checked steps OK,
`CreateEntities` returns `true` although `rclc_executor_add_subscription` returned an
error, and also although `malloc` returned `NULL` (and `msg.axes.data` is then `NULL`
with `capacity = 10`). -/
theorem create_true_despite_failed_step :
    env_add_subscription_fails.add_subscription ≠ RCL_RET_OK
      ∧ (∃ g, CreateEntities env_add_subscription_fails connecting_globals = .done true g)
      ∧ env_malloc_fails.malloc_ok = false
      ∧ (∃ g, CreateEntities env_malloc_fails connecting_globals = .done true g
            ∧ g.msg.axes.data = none ∧ g.msg.axes.capacity = 10)
      ∧ (HandleConnectionState env_add_subscription_fails
            connecting_globals).globals.connection_state = .Connected
      ∧ (HandleConnectionState env_malloc_fails
            connecting_globals).globals.connection_state = .Connected := by
  refine ⟨by decide, ⟨_, rfl⟩, rfl, ⟨_, rfl, rfl, rfl⟩, by decide, by decide⟩

/-- C5, counterexample. In `Connecting`, with node init OK and subscription init not OK,
the tick does not end in `WaitingForAgent`: `CreateEntities` does not return (no `false`
reaches `HandleConnectionState`), `error_loop` restarts the device and
`connection_state` is still `Connecting`. -/
theorem create_failure_not_surfaced :
    connecting_globals.connection_state = .Connecting
      ∧ env_subscription_init_fails.node_init = RCL_RET_OK
      ∧ env_subscription_init_fails.subscription_init ≠ RCL_RET_OK
      ∧ (CreateEntities env_subscription_init_fails connecting_globals).returned = false
      ∧ (HandleConnectionState env_subscription_init_fails connecting_globals).returned
          = false
      ∧ (HandleConnectionState env_subscription_init_fails
            connecting_globals).globals.connection_state = .Connecting := by
  decide

/-- C5, amended. In `Connecting`, when one of the four checked create steps (support,
node, executor, subscription init) returns a code other than `RCL_RET_OK`,
`CreateEntities` does not return: `error_loop` is called once and restarts the device in
the middle of the tick, `connection_state` is never assigned and is still `Connecting`,
and the receive buffer and the heap are untouched.  `CreateEntities` never returns
`false`.  After the restart the globals are those of `boot`, and `setup` sets
`WaitingForAgent`. -/
theorem create_failure_restarts (e : Env) (g : Globals)
    (hc : g.connection_state = .Connecting) (hf : ¬ create_checks_ok e) :
    CreateEntities e g
        = .restart { g with trace := .call .error_loop :: .call .CreateEntities :: g.trace }
      ∧ HandleConnectionState e g
        = .restart { g with trace := .call .error_loop :: .call .CreateEntities :: g.trace }
      ∧ (HandleConnectionState e g).globals.connection_state = .Connecting
      ∧ (HandleConnectionState e g).globals.history = g.history
      ∧ (∀ (e1 : Env) (g1 g2 : Globals), CreateEntities e1 g1 ≠ .done false g2)
      ∧ (setup boot).returned = true
      ∧ (setup boot).globals.connection_state = .WaitingForAgent := by
  have h1 : CreateEntities e g
      = .restart { g with trace := .call .error_loop :: .call .CreateEntities :: g.trace } := by
    rw [CreateEntities_apply, if_neg hf]
  refine ⟨h1, ?_, ?_, ?_, ?_, rfl, rfl⟩
  · rw [HandleConnectionState_apply, hc]
    simp only [h1, Outcome.andThen_restart, hc]
  · rw [HandleConnectionState_apply, hc]
    simp only [h1, Outcome.andThen_restart, Outcome.globals, hc]
  · rw [HandleConnectionState_apply, hc]
    simp only [h1, Outcome.andThen_restart, Outcome.globals]
  · intro e1 g1 g2
    rw [CreateEntities_apply]
    by_cases h : create_checks_ok e1 <;> simp [h]

/-- Witness for C5: subscription init fails after node init succeeded. -/
theorem create_failure_restarts_witness :
    connecting_globals.connection_state = .Connecting
      ∧ ¬ create_checks_ok env_subscription_init_fails
      ∧ (HandleConnectionState env_subscription_init_fails
            connecting_globals).globals.connection_state = .Connecting :=
  ⟨by decide, by decide,
    (create_failure_restarts env_subscription_init_fails connecting_globals
      (by decide) (by decide)).2.2.1⟩


/-! ## The message callback -/

/-- C2, the code at the failing input. `ControllerCallback` reads `array_data[4]` whatever
`size` is; for a message with `size = 4` in a buffer of capacity 10 it reads index 4,
which is not below `size`.  The same happens when that message is delivered by the
dispatch pass of a `Connected` tick. -/
theorem callback_reads_index_four :
    (∀ (msgin : Joy) (g : Globals),
      axes_reads (ControllerCallback msgin g).globals.trace = 4 :: axes_reads g.trace)
    ∧ joy_four_axes.axes.size = 4
    ∧ joy_four_axes.axes.size ≤ joy_four_axes.axes.capacity
    ∧ axes_reads (ControllerCallback joy_four_axes boot).globals.trace = [4]
    ∧ ¬ (∀ i ∈ axes_reads (ControllerCallback joy_four_axes boot).globals.trace,
          i < joy_four_axes.axes.size)
    ∧ (HandleConnectionState env_four_axes connected_globals).globals.msg.axes.size = 4
    ∧ axes_reads (HandleConnectionState env_four_axes connected_globals).globals.trace
        = [4] := by
  refine ⟨fun msgin g => rfl, rfl, by decide, rfl, by decide, by decide, by decide⟩

/-! ## Sessions -/

/-- C6, counterexample. After `setup` and three completed ticks (agent found, entities
created, probe failed) a Session exists, since `CreateEntities` returned `true` and
`DestroyEntities` has not been called, but `connection_state` is `Disconnected`. -/
theorem session_outlives_connected :
    (execution [env_ok, env_ok, env_unreachable]).returned = true
      ∧ session_exists (execution [env_ok, env_ok, env_unreachable]).globals.trace = true
      ∧ calls .DestroyEntities (execution [env_ok, env_ok, env_unreachable]).globals.trace = 0
      ∧ ¬ (session_exists (execution [env_ok, env_ok, env_unreachable]).globals.trace = true
            ↔ (execution [env_ok, env_ok, env_unreachable]).globals.connection_state
                = .Connected) := by
  decide

theorem session_ok_tick (e : Env) (g g1 : Globals) (h : session_ok g)
    (ht : HandleConnectionState e g = .done () g1) : session_ok g1 := by
  unfold session_ok at h ⊢
  rw [HandleConnectionState_apply] at ht
  cases hcs : g.connection_state <;> rw [hcs] at ht h
  · cases ht
    simpa [hcs] using h
  · by_cases hp : e.ping = RMW_RET_OK
    · simp only [hp, if_true, Outcome.done.injEq, true_and] at ht
      subst ht
      simpa using h
    · simp only [hp, if_false, Outcome.done.injEq, true_and] at ht
      subst ht
      simpa [hcs] using h
  · by_cases hc : create_checks_ok e
    · simp [CreateEntities_apply, hc] at ht
      subst ht
      simp [session_exists]
    · simp [CreateEntities_apply, hc] at ht
  · by_cases hp : e.ping = RMW_RET_OK
    · simp only [hp, if_true, rclc_executor_spin_some_apply] at ht
      cases hdl : delivered e g.msg.axes.capacity <;> rw [hdl] at ht <;>
        simp only [Outcome.done.injEq, true_and] at ht <;> subst ht <;>
        simpa [session_exists, hcs] using h
    · simp only [hp, if_false, Outcome.done.injEq, true_and] at ht
      subst ht
      simpa using h
  · by_cases hd : destroy_checks_ok e
    · simp [DestroyEntities_apply, hd] at ht
      subst ht
      simp [session_exists]
    · simp [DestroyEntities_apply, hd] at ht

theorem session_ok_ticks (es : List Env) (g g1 : Globals) (h : session_ok g)
    (ht : ticks es g = .done () g1) : session_ok g1 := by
  induction es generalizing g with
  | nil =>
    cases ht
    exact h
  | cons e es ih =>
    rw [ticks_cons] at ht
    cases ho : HandleConnectionState e g with
    | done a g2 =>
      rw [ho] at ht
      exact ih g2 (session_ok_tick e g g2 h ho) ht
    | restart g2 =>
      rw [ho] at ht
      cases ht

/-- C6, amended. In an execution that starts at power-on (`setup`, then ticks), after
every completed tick and whatever the collaborators answered, a Session exists
(`CreateEntities` has returned `true` and `DestroyEntities` has not been called since)
if and only if `connection_state` is `Connected` or `Disconnected`. -/
theorem session_iff_connected_or_disconnected (es : List Env) (g : Globals)
    (h : execution es = .done () g) :
    session_exists g.trace = true
      ↔ (g.connection_state = .Connected ∨ g.connection_state = .Disconnected) := by
  have h0 : session_ok (setup boot).globals := by
    unfold session_ok
    decide
  exact session_ok_ticks es _ g h0 h

/-- Witness for C6: after two ticks the state is `Connected` and a Session exists. -/
theorem session_iff_connected_or_disconnected_witness :
    execution [env_ok, env_ok] = .done () connected_globals
      ∧ (session_exists connected_globals.trace = true
          ↔ (connected_globals.connection_state = .Connected
              ∨ connected_globals.connection_state = .Disconnected)) :=
  ⟨rfl, session_iff_connected_or_disconnected [env_ok, env_ok] connected_globals rfl⟩


/-! ## Scenario D -/

/-- C7, counterexample. From `Connected` with a Session, the probe fails and the tick
ends in `Disconnected`; in the next tick `rcl_subscription_fini` fails, and that tick
does not end in `WaitingForAgent`: the device restarts with `connection_state` still
`Disconnected`. -/
theorem finalize_failure_in_scenario_D :
    connected_globals.connection_state = .Connected
      ∧ session_exists connected_globals.trace = true
      ∧ HandleConnectionState env_unreachable connected_globals
          = .done () disconnected_globals
      ∧ disconnected_globals.connection_state = .Disconnected
      ∧ (HandleConnectionState env_subscription_fini_fails disconnected_globals).returned
          = false
      ∧ (HandleConnectionState env_subscription_fini_fails
            disconnected_globals).globals.connection_state ≠ .WaitingForAgent := by
  decide

/-- C7, amended. From `Connected` with a Session, a tick whose probe fails returns in
`Disconnected` without a dispatch pass; the next tick calls `DestroyEntities` exactly
once and, when subscription and node finalization return `RCL_RET_OK`, returns in
`WaitingForAgent` with no Session; `CreateEntities` is called in neither tick. -/
theorem scenario_D (e1 e2 : Env) (g : Globals)
    (hc : g.connection_state = .Connected) (hs : session_exists g.trace = true)
    (hp : e1.ping ≠ RMW_RET_OK) :
    ∃ g1, HandleConnectionState e1 g = .done () g1
      ∧ g1.connection_state = .Disconnected
      ∧ session_exists g1.trace = true
      ∧ calls .rclc_executor_spin_some g1.trace = calls .rclc_executor_spin_some g.trace
      ∧ calls .CreateEntities g1.trace = calls .CreateEntities g.trace
      ∧ calls .DestroyEntities g1.trace = calls .DestroyEntities g.trace
      ∧ calls .DestroyEntities (HandleConnectionState e2 g1).globals.trace
          = calls .DestroyEntities g.trace + 1
      ∧ calls .CreateEntities (HandleConnectionState e2 g1).globals.trace
          = calls .CreateEntities g.trace
      ∧ (e2.subscription_fini = RCL_RET_OK ∧ e2.node_fini = RCL_RET_OK →
          (HandleConnectionState e2 g1).returned = true
            ∧ (HandleConnectionState e2 g1).globals.connection_state = .WaitingForAgent
            ∧ session_exists (HandleConnectionState e2 g1).globals.trace = false) := by
  refine ⟨{ g with connection_state := .Disconnected, history := .Disconnected :: g.history },
    ?_, rfl, hs, rfl, rfl, rfl, ?_, ?_, ?_⟩
  · rw [HandleConnectionState_apply, hc]
    simp only [hp, if_false]
  · rw [HandleConnectionState_apply]
    by_cases hd : destroy_checks_ok e2 <;>
      simp [DestroyEntities_apply, hd, Outcome.globals, calls]
  · rw [HandleConnectionState_apply]
    by_cases hd : destroy_checks_ok e2 <;>
      simp [DestroyEntities_apply, hd, Outcome.globals, calls]
  · intro hd
    have hd2 : destroy_checks_ok e2 := hd
    rw [HandleConnectionState_apply]
    simp [DestroyEntities_apply, hd2, Outcome.globals, Outcome.returned, session_exists]

/-- Witness for C7: the probe fails in `Connected`, then every finalize step succeeds. -/
theorem scenario_D_witness :
    connected_globals.connection_state = .Connected
      ∧ session_exists connected_globals.trace = true
      ∧ env_unreachable.ping ≠ RMW_RET_OK
      ∧ ∃ g1, HandleConnectionState env_unreachable connected_globals = .done () g1
          ∧ g1.connection_state = .Disconnected
          ∧ (HandleConnectionState env_ok g1).globals.connection_state
              = .WaitingForAgent := by
  obtain ⟨g1, h1, h2, _, _, _, _, _, _, h9⟩ :=
    scenario_D env_unreachable env_ok connected_globals (by decide) (by decide) (by decide)
  exact ⟨by decide, by decide, by decide, g1, h1, h2, (h9 (by decide)).2.1⟩

/-! ## The receive buffer -/

theorem spin_some_frame (e : Env) (g : Globals) :
    ∃ g1, rclc_executor_spin_some e g = .done () g1
      ∧ g1.connection_state = g.connection_state
      ∧ g1.heap = g.heap ∧ g1.msg.axes.data = g.msg.axes.data := by
  rw [rclc_executor_spin_some_apply]
  cases delivered e g.msg.axes.capacity with
  | none => exact ⟨_, rfl, rfl, rfl, rfl⟩
  | some n => exact ⟨_, rfl, rfl, rfl, rfl⟩

theorem connected_ticks_heap (es : List Env) (g : Globals)
    (hc : g.connection_state = .Connected) (hp : ∀ e ∈ es, e.ping = RMW_RET_OK) :
    ∃ g1, ticks es g = .done () g1 ∧ g1.connection_state = .Connected
      ∧ g1.heap = g.heap ∧ g1.msg.axes.data = g.msg.axes.data := by
  induction es generalizing g with
  | nil => exact ⟨g, rfl, hc, rfl, rfl⟩
  | cons e es ih =>
    have he : e.ping = RMW_RET_OK := hp e (List.mem_cons_self _ _)
    have hes : ∀ e1 ∈ es, e1.ping = RMW_RET_OK := fun e1 h1 => hp e1 (List.mem_cons_of_mem _ h1)
    obtain ⟨g0, s1, s2, s3, s4⟩ := spin_some_frame e g
    rw [ticks_cons, HandleConnectionState_apply, hc]
    simp only [he, if_true, s1, Outcome.andThen_done]
    obtain ⟨g1, h1, h2, h3, h4⟩ := ih g0 (s2.trans hc) hes
    exact ⟨g1, h1, h2, h3.trans s3, h4.trans s4⟩

theorem cycle_heap (c : Cycle) (g : Globals)
    (hw : g.connection_state = .WaitingForAgent) (hf : c.full) :
    ∃ g1, ticks c.envs g = .done () g1 ∧ g1.connection_state = .WaitingForAgent
      ∧ g1.heap.blocks = g.heap.blocks ++ [40] ∧ g1.heap.freed = g.heap.freed
      ∧ g1.msg.axes.data = some g.heap.blocks.length := by
  obtain ⟨h1, h2, h3, h4, h5, h6⟩ := hf
  unfold Cycle.envs
  rw [ticks_cons, HandleConnectionState_apply, hw]
  simp only [h1, if_true, Outcome.andThen_done]
  rw [ticks_cons, HandleConnectionState_apply]
  simp only [CreateEntities_apply, h2, h3, if_true, Outcome.andThen_done,
    set_connection_state_apply]
  rw [ticks_append]
  obtain ⟨g1, k1, k2, k3, k4⟩ := connected_ticks_heap c.connected
    { connection_state := ConnectionState.Connected
      msg := { axes := { data := some g.heap.blocks.length, size := 0, capacity := 10 } }
      heap := { blocks := g.heap.blocks ++ [40], freed := g.heap.freed }
      history := ConnectionState.Connected :: ConnectionState.Connecting :: g.history
      trace := Event.create_returned true :: Event.call Fn.CreateEntities :: g.trace }
    rfl h4
  rw [k1]
  simp only [Outcome.andThen_done]
  rw [ticks_cons, HandleConnectionState_apply, k2]
  simp only [h5, if_false, Outcome.andThen_done]
  rw [ticks_cons, HandleConnectionState_apply]
  simp only [DestroyEntities_apply, h6, if_true, Outcome.andThen_done,
    set_connection_state_apply]
  refine ⟨_, rfl, rfl, ?_, ?_, ?_⟩
  · simp [k3]
  · simp [k3]
  · simp [k4]


theorem cycles_heap (cycles : List Cycle) (g : Globals)
    (hw : g.connection_state = .WaitingForAgent) (hf : ∀ c ∈ cycles, c.full) :
    ∃ g1, ticks (cycles_envs cycles) g = .done () g1
      ∧ g1.connection_state = .WaitingForAgent
      ∧ g1.heap.blocks = g.heap.blocks ++ List.replicate cycles.length 40
      ∧ g1.heap.freed = g.heap.freed := by
  induction cycles generalizing g with
  | nil => exact ⟨g, rfl, hw, by simp, rfl⟩
  | cons c cs ih =>
    obtain ⟨g0, c1, c2, c3, c4, _⟩ := cycle_heap c g hw (hf c (List.mem_cons_self _ _))
    obtain ⟨g1, k1, k2, k3, k4⟩ := ih g0 c2 fun c0 h0 => hf c0 (List.mem_cons_of_mem _ h0)
    refine ⟨g1, ?_, k2, ?_, k4.trans c4⟩
    · show ticks (c.envs ++ cycles_envs cs) g = _
      rw [ticks_append, c1]
      exact k1
    · rw [k3, c3, List.length_cons, List.replicate_succ]
      simp

end MicroROSController
